import Mathlib

/-!
Verification of the WALT cpufreq governor core (`kernel/sched/walt/cpufreq_walt.c`)
against its natural-language specification.

The C code is shallowly embedded: kernel `u64`/`u32` arithmetic is modelled by
`Nat` with explicit reduction modulo `2^64`/`2^32` at the points where the C
types can wrap, `s64` values are modelled by `Int` obtained from the two-sided
complement interpretation of a `u64` bit pattern, and the per-policy /
per-CPU mutable structures become explicit state records threaded through the
functions.  Config-gated OPLUS code (`CONFIG_OPLUS_FEATURE_SUGOV_TL`,
`..._FRAME_BOOST`, `..._OCH`) is modelled with those options disabled, which is
the configuration the specification describes.  External collaborators
(`cpufreq_driver_resolve_freq`, `cpu_util_rt`, the scheduler signals) are
parameters of the embedding.
-/

namespace WaltGov

/-- Modulus of the kernel `u64` type. -/
def U64 : Nat := 2 ^ 64

/-- Modulus of the kernel `u32` (`unsigned int`) type. -/
def U32 : Nat := 2 ^ 32

/-- `NSEC_PER_SEC` from the kernel headers. -/
def NSEC_PER_SEC : Nat := 1000000000

/-- `KHZ`, defined right above `waltgov_track_cycles` in `cpufreq_walt.c`. -/
def KHZ : Nat := 1000

/-- `NSEC_PER_USEC` from the kernel headers. -/
def NSEC_PER_USEC : Nat := 1000

/-- The kernel `mult_frac(x, numer, denom)` macro: `(x/denom)*numer +
((x mod denom)*numer)/denom`, overflow-free splitting of `x*numer/denom`. -/
def mult_frac (x numer denom : Nat) : Nat :=
  x / denom * numer + x % denom * numer / denom

/-- `u64` subtraction `a - b` (wrapping), for operands already reduced
below `2^64`. -/
def u64sub (a b : Nat) : Nat := (a + (U64 - b % U64)) % U64

/-- Reinterpret a `u64` bit pattern as the kernel `s64` value (the C
assignment `s64 delta = (u64 expression)`). -/
def s64ofU64 (n : Nat) : Int :=
  if n % U64 < 2 ^ 63 then (n % U64 : Nat) else (n % U64 : Nat) - (U64 : Nat)

/-- `-EFAULT`, the "bad address / not found" error returned for impossible
CPUs by the adaptive-frequency kernel API. -/
def EFAULT : Int := 14

/-- `-EINVAL`, the invalid-argument error. -/
def EINVAL : Int := 22

/-- `NL_RATIO` from `cpufreq_walt.c`: new-load must reach this percentage of
the utilization for the new-task override. -/
def NL_RATIO : Nat := 75

/-- `TARGET_LOAD` from `cpufreq_walt.c`, used for conservative predicted
load and `target_util`. -/
def TARGET_LOAD : Nat := 80

/-- Modelled from the spec: `WALT_CPUFREQ_IC_MIGRATION` is defined in
`kernel/sched/walt/walt.h`, which is not among the sources; the spec treats
it as the "mid-migration" bit of the per-CPU `flags` word.  The numeric
value is a representative distinct bit; no claim depends on it. -/
def WALT_CPUFREQ_IC_MIGRATION : Nat := 2

/-- Modelled from the spec: the `CPUFREQ_REASON_*` codes are defined in
`kernel/sched/walt/walt.h`, not among the sources.  The spec (sections 3 and
9) describes the reason field as "a bitmask identifying which override rule
won", with the early-detection bit OR-combinable with another winner, so the
codes are modelled as distinct single bits.  No claim depends on the exact
numeric values. -/
def CPUFREQ_REASON_BTR : Nat := 1

/-- Modelled from the spec: predicted-load override reason bit. -/
def CPUFREQ_REASON_PL : Nat := 2

/-- Modelled from the spec: early-detection override reason bit. -/
def CPUFREQ_REASON_EARLY_DET : Nat := 4

/-- Modelled from the spec: RTG-boost override reason bit. -/
def CPUFREQ_REASON_RTG_BOOST : Nat := 8

/-- Modelled from the spec: hispeed override reason bit. -/
def CPUFREQ_REASON_HISPEED : Nat := 16

/-- Modelled from the spec: new-task-wakeup (NWD) override reason bit. -/
def CPUFREQ_REASON_NWD : Nat := 32

/-- Modelled from the spec: adaptive-low clamp reason bit. -/
def CPUFREQ_REASON_ADAPTIVE_LOW : Nat := 64

/-- Modelled from the spec: adaptive-high clamp reason bit. -/
def CPUFREQ_REASON_ADAPTIVE_HIGH : Nat := 128

/-- The fields of `struct cpufreq_policy` read by the governor: the policy
limits `min`/`max`, the current frequency `cur` and the hardware maximum
`cpuinfo.max_freq`. -/
structure cpufreq_policy where
  min : Nat
  max : Nat
  cur : Nat
  cpuinfo_max_freq : Nat
deriving DecidableEq

/-- `struct waltgov_tunables` (sysfs-visible configuration shared by all
domains of one attribute set). -/
structure waltgov_tunables where
  up_rate_limit_us : Nat
  down_rate_limit_us : Nat
  hispeed_load : Nat
  hispeed_freq : Nat
  rtg_boost_freq : Nat
  adaptive_low_freq : Nat
  adaptive_high_freq : Nat
  adaptive_low_freq_kernel : Nat
  adaptive_high_freq_kernel : Nat
  target_load_thresh : Nat
  target_load_shift : Nat
  pl : Bool
  boost : Int
deriving DecidableEq

/-- `struct waltgov_policy`: the per-frequency-domain governor state.  The
kthread/irq-work plumbing fields are not part of the decision algorithm and
are omitted. -/
structure waltgov_policy where
  policy : cpufreq_policy
  last_ws : Nat
  curr_cycles : Nat
  last_cyc_update_time : Nat
  avg_cap : Nat
  tunables : waltgov_tunables
  hispeed_util : Nat
  rtg_boost_util : Nat
  max : Nat
  last_freq_update_time : Nat
  min_rate_limit_ns : Int
  up_rate_delay_ns : Int
  down_rate_delay_ns : Int
  next_freq : Nat
  cached_raw_freq : Nat
  driving_cpu : Nat
  limits_changed : Bool
  need_freq_update : Bool
deriving DecidableEq

/-- Modelled from the spec: `struct walt_cpu_load` is declared in
`kernel/sched/walt/walt.h`, which is not among the sources.  Its fields are
reconstructed from their uses in `cpufreq_walt.c` and the spec description
of the sampler signals: new-task load `nl`, predicted load `pl`, window
start `ws`, and the RTG-boost / early-detection / big-task-rotation flags. -/
structure walt_cpu_load where
  nl : Nat
  pl : Nat
  ws : Nat
  rtgb_active : Bool
  ed_active : Bool
  big_task_rotation : Bool
deriving DecidableEq

/-- `struct waltgov_cpu`: the per-CPU transient sample slot. -/
structure waltgov_cpu where
  cpu : Nat
  walt_load : walt_cpu_load
  util : Nat
  max : Nat
  flags : Nat
  reasons : Nat
deriving DecidableEq

/-- `waltgov_should_update_freq`: consume `limits_changed` (forcing
`need_freq_update`), otherwise gate on the minimum rate limit.  Returns the
decision and the updated policy state. -/
def waltgov_should_update_freq (wg : waltgov_policy) (time : Nat) :
    Bool × waltgov_policy :=
  if wg.limits_changed then
    (true, { wg with limits_changed := false, need_freq_update := true })
  else
    (decide (wg.min_rate_limit_ns ≤
        s64ofU64 (u64sub time wg.last_freq_update_time)), wg)

/-- `waltgov_up_down_rate_limit`: `true` means the candidate change is
rejected because it raises within `up_rate_delay_ns` or lowers within
`down_rate_delay_ns` of the last commit. -/
def waltgov_up_down_rate_limit (wg : waltgov_policy) (time : Nat)
    (next_freq : Nat) : Bool :=
  let delta_ns : Int := s64ofU64 (u64sub time wg.last_freq_update_time)
  if wg.next_freq < next_freq ∧ delta_ns < wg.up_rate_delay_ns then
    true
  else if next_freq < wg.next_freq ∧ delta_ns < wg.down_rate_delay_ns then
    true
  else
    false

/-- `waltgov_update_next_freq`: commit `next_freq` unless it is a no-change
or is rejected by the directional rate limit (in which case
`cached_raw_freq` is zeroed to force recomputation). -/
def waltgov_update_next_freq (wg : waltgov_policy) (time : Nat)
    (next_freq raw_freq : Nat) : Bool × waltgov_policy :=
  if wg.next_freq = next_freq then
    (false, wg)
  else if waltgov_up_down_rate_limit wg time next_freq then
    (false, { wg with cached_raw_freq := 0 })
  else
    (true, { wg with cached_raw_freq := raw_freq, next_freq := next_freq,
                     last_freq_update_time := time })

/-- `freq_to_util`: scale a frequency into capacity units through the
domain max-capacity / max-frequency ratio. -/
def freq_to_util (wg : waltgov_policy) (freq : Nat) : Nat :=
  mult_frac wg.max freq wg.policy.cpuinfo_max_freq

/-- `waltgov_track_cycles`: accumulate `(upto - last_cyc_update_time) *
prev_freq / 10^6` cycle units into `curr_cycles`, clamped at the end of the
current window.  `window` is the global `sched_ravg_window` (defined in
`walt.c`, outside these sources, hence a parameter). -/
def waltgov_track_cycles (window : Nat) (wg : waltgov_policy)
    (prev_freq : Nat) (upto : Nat) : waltgov_policy :=
  let next_ws := (wg.last_ws + window) % U64
  let upto1 := min upto next_ws
  let delta_ns := u64sub upto1 wg.last_cyc_update_time
  let delta_ns := delta_ns * prev_freq % U64
  let cycles := delta_ns / (NSEC_PER_SEC / KHZ)
  { wg with curr_cycles := (wg.curr_cycles + cycles) % U64,
            last_cyc_update_time := upto1 }

/-- `waltgov_calc_avg_cap`: recompute the rolling average capacity at a
window boundary.  `none` models the `BUG_ON(curr_ws < last_ws)` firing;
`curr_ws = last_ws` is a no-op; skipping more than one window discards
history and seeds from `prev_freq`; otherwise the accumulated cycles are
converted to an average frequency (an `unsigned int`, hence the `% U32`). -/
def waltgov_calc_avg_cap (window : Nat) (wg : waltgov_policy)
    (curr_ws : Nat) (prev_freq : Nat) : Option waltgov_policy :=
  if curr_ws < wg.last_ws then
    none
  else if curr_ws ≤ wg.last_ws then
    some wg
  else
    let step :=
      if (wg.last_ws + window) % U64 < curr_ws then
        (prev_freq, { wg with last_cyc_update_time := curr_ws })
      else
        let wg1 := waltgov_track_cycles window wg prev_freq curr_ws
        (wg1.curr_cycles % U32 / (window / (NSEC_PER_SEC / KHZ)), wg1)
    some { step.2 with avg_cap := freq_to_util step.2 step.1,
                       curr_cycles := 0, last_ws := curr_ws }

/-- `get_adaptive_low_freq`: the effective adaptive-low bound, the max of
the user-space and kernel-origin tunables. -/
def get_adaptive_low_freq (wg : waltgov_policy) : Nat :=
  max wg.tunables.adaptive_low_freq wg.tunables.adaptive_low_freq_kernel

/-- `get_adaptive_high_freq`: the effective adaptive-high bound, the max of
the user-space and kernel-origin tunables. -/
def get_adaptive_high_freq (wg : waltgov_policy) : Nat :=
  max wg.tunables.adaptive_high_freq wg.tunables.adaptive_high_freq_kernel

/-- `walt_map_util_freq`: utilization to raw frequency with 1.25x headroom
(or the sharper `target_load_shift` curve above `target_load_thresh` when
the CPU runs little RT load).  `util_rt` stands for the external
`cpu_util_rt(cpu_rq(cpu))` collaborator.  Products are `unsigned long`
(`u64`) and reduced accordingly. -/
def walt_map_util_freq (util : Nat) (wg : waltgov_policy) (cap : Nat)
    (util_rt : Nat) : Nat :=
  let fmax := wg.policy.cpuinfo_max_freq
  let shift := wg.tunables.target_load_shift
  if wg.tunables.target_load_thresh ≤ util ∧ util_rt < cap >>> 2 then
    max ((fmax + fmax >>> shift) * util % U64)
        ((fmax + fmax >>> 2) * wg.tunables.target_load_thresh % U64) / cap
  else
    (fmax + fmax >>> 2) * util % U64 / cap

/-- The adaptive-frequency-band block of `get_next_freq` (lines 450-458 of
`cpufreq_walt.c`): given the raw frequency and the driving CPU reason
field, produce the band-adjusted frequency and updated reason field. -/
def adaptive_clamp (wg : waltgov_policy) (raw_freq : Nat) (reasons : Nat) :
    Nat × Nat :=
  if wg.tunables.adaptive_high_freq ≠ 0 then
    if raw_freq < get_adaptive_low_freq wg then
      (get_adaptive_low_freq wg, CPUFREQ_REASON_ADAPTIVE_LOW)
    else if raw_freq ≤ get_adaptive_high_freq wg then
      (get_adaptive_high_freq wg, CPUFREQ_REASON_ADAPTIVE_HIGH)
    else
      (raw_freq, reasons)
  else
    (raw_freq, reasons)

/-- Result of `get_next_freq`: the returned frequency (`0` = no change),
the updated domain state, and the driving CPU reason field. -/
structure GNFResult where
  ret : Nat
  wg : waltgov_policy
  driv_reasons : Nat
deriving DecidableEq

/-- `get_next_freq` (with `CONFIG_OPLUS_FEATURE_SUGOV_TL` disabled): map
utilization to a raw frequency, apply the adaptive band, short-circuit when
the band-adjusted frequency matches the nonzero `cached_raw_freq` with no
forced update, otherwise resolve through the driver (`resolve` models
`cpufreq_driver_resolve_freq`) and attempt the rate-limited commit. -/
def get_next_freq (resolve : Nat → Nat) (util_rt : Nat)
    (wg : waltgov_policy) (util cap : Nat) (driv_reasons : Nat)
    (time : Nat) : GNFResult :=
  let raw_freq := walt_map_util_freq util wg cap util_rt
  let clamped := adaptive_clamp wg raw_freq driv_reasons
  let freq := clamped.1
  if wg.cached_raw_freq ≠ 0 ∧ freq = wg.cached_raw_freq ∧
      wg.need_freq_update = false then
    ⟨0, wg, clamped.2⟩
  else
    let wg1 := { wg with need_freq_update := false }
    let final_freq := resolve freq
    let committed := waltgov_update_next_freq wg1 time final_freq freq
    if committed.1 then
      ⟨final_freq, committed.2, clamped.2⟩
    else
      ⟨0, committed.2, clamped.2⟩

/-- State mutated by `max_and_reason` and `waltgov_walt_adjust`: the running
aggregate utilization, the per-CPU reason field, and the domain driving
CPU. -/
structure AdjState where
  util : Nat
  reasons : Nat
  driving_cpu : Nat
deriving DecidableEq

/-- `max_and_reason`: replace the running utilization when the nonzero
candidate is at least as large, recording the reason and the driving CPU. -/
def max_and_reason (st : AdjState) (boost_util : Nat) (cpu : Nat)
    (reason : Nat) : AdjState :=
  if boost_util ≠ 0 ∧ st.util ≤ boost_util then
    { util := boost_util, reasons := reason, driving_cpu := cpu }
  else
    st

/-- The reason-field invariant of the override chain: the recorded reasons
are those of a single winning rule (or the incoming field `base` when no
rule won), possibly OR-combined with the early-detection bit — the one
documented exception. -/
def ReasonInv (base : Nat) (s : AdjState) : Prop :=
  ∃ r, (r = base ∨ r = CPUFREQ_REASON_EARLY_DET ∨
        r = CPUFREQ_REASON_RTG_BOOST ∨ r = CPUFREQ_REASON_HISPEED ∨
        r = CPUFREQ_REASON_NWD ∨ r = CPUFREQ_REASON_PL ∨
        r = CPUFREQ_REASON_BTR) ∧
    (s.reasons = r ∨ s.reasons = r ||| CPUFREQ_REASON_EARLY_DET)

/-- `waltgov_walt_adjust`: the priority-ordered override chain
(early-detection, RTG boost, hispeed, new-task wakeup, predicted load,
big-task rotation).  `ed_boost_pct` and `conservative_pl` stand for the
external sysctls, `cpu_util`/`nl` are the (boost-scaled) inputs of the
caller, `util`/`cap` the running aggregate pair (`*util`/`*max`; `*max` is
never written by this function).  The `CONFIG_OPLUS_FEATURE_OCH` newtask
flag is config-disabled. -/
def waltgov_walt_adjust (ed_boost_pct : Nat) (conservative_pl : Bool)
    (wg : waltgov_policy) (wg_cpu : waltgov_cpu) (cpu_util nl : Nat)
    (util cap : Nat) : AdjState :=
  let st : AdjState := ⟨util, wg_cpu.reasons, wg.driving_cpu⟩
  let is_migration := wg_cpu.flags &&& WALT_CPUFREQ_IC_MIGRATION ≠ 0
  let is_rtg_boost := wg_cpu.walt_load.rtgb_active
  let big_task_rotation := wg_cpu.walt_load.big_task_rotation
  let employ_ed_boost := wg_cpu.walt_load.ed_active ∧ ed_boost_pct ≠ 0
  let pl := wg_cpu.walt_load.pl
  let cpu_util1 :=
    if employ_ed_boost then mult_frac cpu_util (100 + ed_boost_pct) 100
    else cpu_util
  let st1 :=
    if employ_ed_boost then
      max_and_reason st cpu_util1 wg_cpu.cpu CPUFREQ_REASON_EARLY_DET
    else
      st
  let st2 :=
    if is_rtg_boost then
      max_and_reason st1 wg.rtg_boost_util wg_cpu.cpu CPUFREQ_REASON_RTG_BOOST
    else
      st1
  let is_hiload :=
    mult_frac wg.avg_cap wg.tunables.hispeed_load 100 ≤ cpu_util1
  let st3 :=
    if is_hiload ∧ ¬is_migration then
      max_and_reason st2 wg.hispeed_util wg_cpu.cpu CPUFREQ_REASON_HISPEED
    else
      st2
  let st4 :=
    if is_hiload ∧ mult_frac cpu_util1 NL_RATIO 100 ≤ nl then
      max_and_reason st3 cap wg_cpu.cpu CPUFREQ_REASON_NWD
    else
      st3
  let st5 :=
    if wg.tunables.pl then
      let pl1 := if conservative_pl then mult_frac pl TARGET_LOAD 100 else pl
      max_and_reason st4 pl1 wg_cpu.cpu CPUFREQ_REASON_PL
    else
      st4
  let st6 :=
    if employ_ed_boost then
      { st5 with reasons := st5.reasons ||| CPUFREQ_REASON_EARLY_DET }
    else
      st5
  if big_task_rotation then
    max_and_reason st6 cap wg_cpu.cpu CPUFREQ_REASON_BTR
  else
    st6

/-- The boost scaling applied by `waltgov_next_freq_shared` to both the
utilization and the new-task load of every CPU before the driving-CPU
comparison: `mult_frac(x, boost + 100, 100)` when `boost` is nonzero.  The
sysfs store clamps `boost` to `[-100, 1000]`, so `boost + 100` is the
nonnegative `(100+boost)` factor. -/
def waltgov_boosted (boost : Int) (x : Nat) : Nat :=
  if boost ≠ 0 then mult_frac x (boost + 100).toNat 100 else x

/-- The per-domain aggregation loop of `waltgov_next_freq_shared` (lines
585-611): fold over the CPUs of the policy, scaling each sample by the
boost factor, tracking the driving CPU by cross-multiplied ratio
comparison, then applying the override chain.  Returns the aggregate
`(util, max)` pair and the updated domain state.  The per-CPU `reasons`
writes of `waltgov_walt_adjust` do not feed back into the aggregate and are
not threaded through the fold. -/
def waltgov_next_freq_shared_loop (ed_boost_pct : Nat)
    (conservative_pl : Bool) (wg0 : waltgov_policy)
    (cpus : List waltgov_cpu) : Nat × Nat × waltgov_policy :=
  let boost := wg0.tunables.boost
  cpus.foldl
    (fun acc j =>
      let util := acc.1
      let cap := acc.2.1
      let wg := acc.2.2
      let j_util := waltgov_boosted boost j.util
      let j_nl := waltgov_boosted boost j.walt_load.nl
      let j_max := j.max
      let picked :=
        if j_max * util ≤ j_util * cap then
          (j_util, j_max, { wg with driving_cpu := j.cpu })
        else
          (util, cap, wg)
      let st := waltgov_walt_adjust ed_boost_pct conservative_pl picked.2.2 j
        j_util j_nl picked.1 picked.2.1
      (st.util, picked.2.1, { picked.2.2 with driving_cpu := st.driving_cpu }))
    (0, 1, wg0)

/-- `cpufreq_walt_set_adaptive_freq`: the kernel-origin adaptive-band set
API.  `possible` models `cpu_possible(cpu)`; returns the error code and the
(possibly updated) tunables. -/
def cpufreq_walt_set_adaptive_freq (possible : Bool)
    (policy : cpufreq_policy) (t : waltgov_tunables)
    (adaptive_low_freq adaptive_high_freq : Nat) : Int × waltgov_tunables :=
  if possible = false then
    (-EFAULT, t)
  else if policy.min ≤ adaptive_low_freq ∧ adaptive_high_freq ≤ policy.max then
    (0, { t with adaptive_low_freq_kernel := adaptive_low_freq,
                 adaptive_high_freq_kernel := adaptive_high_freq })
  else
    (-EINVAL, t)

/-! Concrete sample states used by witnesses and counterexamples. -/

/-- A representative tunable set: user adaptive band `[500000, 1200000]`,
`hispeed_load = 90`, defaults elsewhere. -/
def sampleTunables : waltgov_tunables :=
  { up_rate_limit_us := 0, down_rate_limit_us := 0, hispeed_load := 90,
    hispeed_freq := 0, rtg_boost_freq := 0, adaptive_low_freq := 500000,
    adaptive_high_freq := 1200000, adaptive_low_freq_kernel := 0,
    adaptive_high_freq_kernel := 0, target_load_thresh := 1024,
    target_load_shift := 4, pl := false, boost := 0 }

/-- A representative policy: limits 300000..2800000 kHz. -/
def samplePolicy : cpufreq_policy :=
  { min := 300000, max := 2800000, cur := 1000000, cpuinfo_max_freq := 2800000 }

/-- A representative domain state. -/
def sampleWg : waltgov_policy :=
  { policy := samplePolicy, last_ws := 0, curr_cycles := 0,
    last_cyc_update_time := 0, avg_cap := 0, tunables := sampleTunables,
    hispeed_util := 0, rtg_boost_util := 0, max := 1024,
    last_freq_update_time := 0, min_rate_limit_ns := 10000000,
    up_rate_delay_ns := 10000000, down_rate_delay_ns := 10000000,
    next_freq := 500000, cached_raw_freq := 0, driving_cpu := 0,
    limits_changed := false, need_freq_update := false }

/-- Domain with `limits_changed` pending. -/
def c1Wg : waltgov_policy := { sampleWg with limits_changed := true }

/-- Tunables with the adaptive band disabled (user high frequency zero). -/
def c3Tunables : waltgov_tunables :=
  { sampleTunables with adaptive_high_freq := 0 }

/-- Domain with zero `cached_raw_freq` and no rate limiting, the state left
behind by a rate-limit rejection. -/
def c3Wg : waltgov_policy :=
  { sampleWg with cached_raw_freq := 0, next_freq := 100000,
                  up_rate_delay_ns := 0, down_rate_delay_ns := 0,
                  tunables := c3Tunables }

/-- Domain whose `cached_raw_freq` matches the frequency computed for
utilization 100 against capacity 1024. -/
def c3bWg : waltgov_policy :=
  { sampleWg with cached_raw_freq := 341796, tunables := c3Tunables }

/-- Tunables with `boost = 50`. -/
def c4Tunables : waltgov_tunables := { sampleTunables with boost := 50 }

/-- Domain with `boost = 50` and a large rolling average capacity (so the
hispeed rule stays quiet). -/
def c4Wg : waltgov_policy :=
  { sampleWg with avg_cap := 10000000, tunables := c4Tunables }

/-- A quiet CPU sample: utilization 700, no scheduler flags. -/
def c4Cpu : waltgov_cpu := ⟨1, ⟨0, 0, 0, false, false, false⟩, 700, 1024, 0, 0⟩

/-- Domain one full window into cycle tracking. -/
def c5Wg : waltgov_policy :=
  { sampleWg with last_ws := 8000000, last_cyc_update_time := 8000000,
                  curr_cycles := 0 }

/-- Domain with `avg_cap = 1000000` and `hispeed_util = 960000`. -/
def c6Wg : waltgov_policy :=
  { sampleWg with avg_cap := 1000000, hispeed_util := 960000 }

/-- A non-migrating CPU with utilization 950000 and no other signals. -/
def c6Cpu : waltgov_cpu :=
  ⟨3, ⟨0, 0, 0, false, false, false⟩, 950000, 1024000, 0, 0⟩

/-- Tunables with the predicted-load override enabled. -/
def c7Tunables : waltgov_tunables := { sampleTunables with pl := true }

/-- Domain for the reason-coexistence example. -/
def c7Wg : waltgov_policy :=
  { sampleWg with avg_cap := 10000000, tunables := c7Tunables }

/-- CPU with early-detection active and a dominating predicted load. -/
def c7Cpu : waltgov_cpu := ⟨2, ⟨0, 999999, 0, false, true, false⟩, 100, 1024, 0, 0⟩

/-- Tunables where only the kernel-origin adaptive band is set. -/
def c10Tunables : waltgov_tunables :=
  { sampleTunables with adaptive_low_freq := 0, adaptive_high_freq := 0,
                        adaptive_low_freq_kernel := 400000,
                        adaptive_high_freq_kernel := 900000 }

/-- Domain where only the kernel-origin adaptive band is set. -/
def c10Wg : waltgov_policy := { sampleWg with tunables := c10Tunables }

/-! Helper lemmas about the machine arithmetic. -/

/-- `u64` subtraction agrees with `Nat` subtraction when it does not wrap. -/
theorem u64sub_eq (a b : Nat) (hba : b ≤ a) (ha : a < U64) :
    u64sub a b = a - b := by
  have hbU : b < U64 := lt_of_le_of_lt hba ha
  unfold u64sub
  rw [Nat.mod_eq_of_lt hbU]
  have h1 : a + (U64 - b) = a - b + U64 := by omega
  rw [h1, Nat.add_mod_right, Nat.mod_eq_of_lt (by omega)]

/-- A `u64` pattern below `2^63` reads back as itself in `s64`. -/
theorem s64ofU64_small (n : Nat) (h : n < 2 ^ 63) : s64ofU64 n = n := by
  have hU : n < U64 := by unfold U64; omega
  unfold s64ofU64
  rw [Nat.mod_eq_of_lt hU, if_pos h]

/-- The governor's elapsed-time computation, under non-wrapping time. -/
theorem s64_u64sub_eq (a b : Nat) (hba : b ≤ a) (ha : a < U64)
    (hs : a - b < 2 ^ 63) : s64ofU64 (u64sub a b) = ((a - b : Nat) : Int) := by
  rw [u64sub_eq a b hba ha, s64ofU64_small _ hs]

/-- `mult_frac` computes exactly `x * numer / denom`. -/
theorem mult_frac_eq (x numer denom : Nat) :
    mult_frac x numer denom = x * numer / denom := by
  unfold mult_frac
  rcases Nat.eq_zero_or_pos denom with hd | hd
  · subst hd; simp
  · calc x / denom * numer + x % denom * numer / denom
        = (denom * (x / denom * numer) + x % denom * numer) / denom := by
          rw [Nat.mul_add_div hd]
      _ = (denom * (x / denom) + x % denom) * numer / denom := by ring_nf
      _ = x * numer / denom := by rw [Nat.div_add_mod]

/-- `max_and_reason` either keeps the reason field or installs its own. -/
theorem max_and_reason_cases (st : AdjState) (b c r : Nat) :
    (max_and_reason st b c r).reasons = st.reasons ∨
      (max_and_reason st b c r).reasons = r := by
  unfold max_and_reason
  split <;> simp

/-- Committing never changes `next_freq` except to the candidate, and only
when the directional rate limit admits it. -/
theorem update_next_freq_cases (wg : waltgov_policy) (time nf raw : Nat) :
    (waltgov_update_next_freq wg time nf raw).2.next_freq = wg.next_freq ∨
      ((waltgov_update_next_freq wg time nf raw).2.next_freq = nf ∧
        waltgov_up_down_rate_limit wg time nf = false) := by
  unfold waltgov_update_next_freq
  by_cases heq : wg.next_freq = nf
  · simp [heq]
  · by_cases hrl : waltgov_up_down_rate_limit wg time nf
    · simp [heq, hrl]
    · simp [heq, hrl]

/-! Claim theorems. -/

/-- C9: calling `waltgov_calc_avg_cap` with a window timestamp equal to the
last recorded window boundary is a no-op leaving the domain state
unchanged; a timestamp strictly older than the boundary is the fatal
`BUG_ON` invariant violation; and under the monotonicity precondition
`last_ws ≤ curr_ws` the fatal branch is unreachable. -/
theorem C9_calc_avg_cap_ordering (window : Nat) (wg : waltgov_policy)
    (curr_ws prev_freq : Nat) :
    (curr_ws = wg.last_ws →
      waltgov_calc_avg_cap window wg curr_ws prev_freq = some wg) ∧
    (curr_ws < wg.last_ws →
      waltgov_calc_avg_cap window wg curr_ws prev_freq = none) ∧
    (wg.last_ws ≤ curr_ws →
      waltgov_calc_avg_cap window wg curr_ws prev_freq ≠ none) := by
  refine ⟨?_, ?_, ?_⟩
  · intro h
    unfold waltgov_calc_avg_cap
    rw [if_neg (by omega), if_pos (by omega)]
  · intro h
    unfold waltgov_calc_avg_cap
    rw [if_pos h]
  · intro h
    unfold waltgov_calc_avg_cap
    rw [if_neg (by omega)]
    split <;> simp

/-- C9 witness: at the sample domain, a repeat of the last window boundary
is a no-op and a strictly older timestamp hits the fatal branch. -/
theorem C9_calc_avg_cap_ordering_witness :
    waltgov_calc_avg_cap 4000000 c5Wg 8000000 77 = some c5Wg ∧
    waltgov_calc_avg_cap 4000000 c5Wg 7999999 77 = none :=
  ⟨(C9_calc_avg_cap_ordering 4000000 c5Wg 8000000 77).1 (by decide),
   (C9_calc_avg_cap_ordering 4000000 c5Wg 7999999 77).2.1 (by decide)⟩

/-- C8: the kernel-origin adaptive-frequency set succeeds (returning 0 and
storing both kernel bounds) exactly when the low request is at least the
policy minimum and the high request at most the policy maximum; a
non-possible CPU gets the distinguished `-EFAULT`; every failure leaves the
tunables unchanged. -/
theorem C8_set_adaptive_freq (possible : Bool) (policy : cpufreq_policy)
    (t : waltgov_tunables) (lo hi : Nat) :
    (possible = true →
      ((cpufreq_walt_set_adaptive_freq possible policy t lo hi).1 = 0 ↔
        policy.min ≤ lo ∧ hi ≤ policy.max)) ∧
    (possible = true → policy.min ≤ lo → hi ≤ policy.max →
      (cpufreq_walt_set_adaptive_freq possible policy t lo hi).2 =
        { t with adaptive_low_freq_kernel := lo,
                 adaptive_high_freq_kernel := hi }) ∧
    (possible = false →
      cpufreq_walt_set_adaptive_freq possible policy t lo hi = (-EFAULT, t)) ∧
    (-EFAULT : Int) ≠ -EINVAL ∧
    ((cpufreq_walt_set_adaptive_freq possible policy t lo hi).1 ≠ 0 →
      (cpufreq_walt_set_adaptive_freq possible policy t lo hi).2 = t) := by
  unfold cpufreq_walt_set_adaptive_freq
  refine ⟨?_, ?_, ?_, by decide, ?_⟩
  · intro hp
    rw [hp]
    by_cases hr : policy.min ≤ lo ∧ hi ≤ policy.max
    · simp [hr]
    · constructor
      · intro h0
        rw [if_neg (by simp), if_neg hr] at h0
        exact absurd h0 (by unfold EINVAL; norm_num)
      · intro h
        exact absurd h hr
  · intro hp hlo hhi
    rw [hp]
    simp [hlo, hhi]
  · intro hp
    rw [hp]
    simp
  · by_cases hp : possible = false
    · simp [hp]
    · rw [if_neg hp]
      by_cases hr : policy.min ≤ lo ∧ hi ≤ policy.max
      · simp [hr]
      · simp [hr]

/-- C8 witness: at the sample policy, an in-range request from a possible
CPU returns 0 and stores the kernel bounds. -/
theorem C8_set_adaptive_freq_witness :
    (cpufreq_walt_set_adaptive_freq true samplePolicy sampleTunables
        400000 1000000).2 =
      { sampleTunables with adaptive_low_freq_kernel := 400000,
                            adaptive_high_freq_kernel := 1000000 } :=
  (C8_set_adaptive_freq true samplePolicy sampleTunables 400000 1000000).2.1
    rfl (by decide) (by decide)

/-- C1 (amended): the committed `next_freq` is never raised while the
elapsed time since the last commit is below `up_rate_delay_ns`, and never
lowered while it is below `down_rate_delay_ns` — unconditionally, for every
state, including states with `limits_changed`/`need_freq_update` set:
nothing in `waltgov_update_next_freq` bypasses the directional rate limit
(`limits_changed` only bypasses the `min_rate_limit_ns` gate in
`waltgov_should_update_freq`). -/
theorem C1_up_down_rate_limit_unconditional (wg : waltgov_policy)
    (time nf raw : Nat)
    (h1 : wg.last_freq_update_time ≤ time) (h2 : time < U64)
    (h3 : time - wg.last_freq_update_time < 2 ^ 63) :
    (((time - wg.last_freq_update_time : Nat) : Int) < wg.up_rate_delay_ns →
      ¬ wg.next_freq <
        (waltgov_update_next_freq wg time nf raw).2.next_freq) ∧
    (((time - wg.last_freq_update_time : Nat) : Int) < wg.down_rate_delay_ns →
      ¬ (waltgov_update_next_freq wg time nf raw).2.next_freq <
        wg.next_freq) := by
  have hdelta : s64ofU64 (u64sub time wg.last_freq_update_time) =
      ((time - wg.last_freq_update_time : Nat) : Int) :=
    s64_u64sub_eq _ _ h1 h2 h3
  rcases update_next_freq_cases wg time nf raw with hsame | ⟨hnf, hrl⟩
  · rw [hsame]
    exact ⟨fun _ => lt_irrefl _, fun _ => lt_irrefl _⟩
  · rw [hnf]
    unfold waltgov_up_down_rate_limit at hrl
    rw [hdelta] at hrl
    constructor
    · intro hup hlt
      rw [if_pos ⟨hlt, hup⟩] at hrl
      exact absurd hrl (by simp)
    · intro hdown hlt
      by_cases hcase : wg.next_freq < nf ∧
          ((time - wg.last_freq_update_time : Nat) : Int) < wg.up_rate_delay_ns
      · rw [if_pos hcase] at hrl
        exact absurd hrl (by simp)
      · rw [if_neg hcase, if_pos ⟨hlt, hdown⟩] at hrl
        exact absurd hrl (by simp)

/-- C1 witness: with 5 ms elapsed against a 10 ms up-rate delay, a raise of
the sample domain to 600000 does not go through. -/
theorem C1_up_down_rate_limit_unconditional_witness :
    ¬ sampleWg.next_freq <
      (waltgov_update_next_freq sampleWg 5000000 600000 600000).2.next_freq :=
  (C1_up_down_rate_limit_unconditional sampleWg 5000000 600000 600000
    (by decide) (by decide) (by decide)).1 (by decide)

/-- C1 counterexample: a domain with `limits_changed` set.
`waltgov_should_update_freq` consumes the flag (setting
`need_freq_update`) and forces reevaluation, but the subsequent commit of a
raise to 600000 only 5 ms (less than `up_rate_delay_ns` = 10 ms) after the
last commit is still blocked by `waltgov_up_down_rate_limit`: the rate
limit does block the change even when `limits_changed` was set, refuting
the exception clause of the claim. -/
theorem C1_counterexample :
    c1Wg.limits_changed = true ∧
    c1Wg.up_rate_delay_ns = 10000000 ∧
    c1Wg.next_freq = 500000 ∧
    (waltgov_should_update_freq c1Wg 5000000).1 = true ∧
    (waltgov_should_update_freq c1Wg 5000000).2.need_freq_update = true ∧
    (waltgov_update_next_freq (waltgov_should_update_freq c1Wg 5000000).2
      5000000 600000 600000).1 = false ∧
    (waltgov_update_next_freq (waltgov_should_update_freq c1Wg 5000000).2
      5000000 600000 600000).2.next_freq = 500000 := by
  decide

/-- C2: with an adaptive band configured (user `adaptive_high_freq`
nonzero), a raw frequency below the effective low bound is mapped to
exactly that bound with reason `ADAPTIVE_LOW`; a raw frequency between the
bounds (inclusive) is mapped to exactly the effective high bound with
reason `ADAPTIVE_HIGH`; a raw frequency above the high bound passes through
unchanged.  For the concrete band `[500000, 1200000]` of the sample domain:
raw 300000 selects 500000, raw 900000 selects 1200000, raw 1500000 passes
through. -/
theorem C2_adaptive_band (wg : waltgov_policy) (raw_freq reasons : Nat)
    (hconf : wg.tunables.adaptive_high_freq ≠ 0) :
    (raw_freq < get_adaptive_low_freq wg →
      adaptive_clamp wg raw_freq reasons =
        (get_adaptive_low_freq wg, CPUFREQ_REASON_ADAPTIVE_LOW)) ∧
    (get_adaptive_low_freq wg ≤ raw_freq →
      raw_freq ≤ get_adaptive_high_freq wg →
      adaptive_clamp wg raw_freq reasons =
        (get_adaptive_high_freq wg, CPUFREQ_REASON_ADAPTIVE_HIGH)) ∧
    (get_adaptive_low_freq wg ≤ get_adaptive_high_freq wg →
      get_adaptive_high_freq wg < raw_freq →
      adaptive_clamp wg raw_freq reasons = (raw_freq, reasons)) ∧
    adaptive_clamp sampleWg 300000 reasons =
      (500000, CPUFREQ_REASON_ADAPTIVE_LOW) ∧
    adaptive_clamp sampleWg 900000 reasons =
      (1200000, CPUFREQ_REASON_ADAPTIVE_HIGH) ∧
    adaptive_clamp sampleWg 1500000 reasons = (1500000, reasons) := by
  unfold adaptive_clamp
  refine ⟨?_, ?_, ?_, ?_, ?_, ?_⟩
  · intro hlow
    rw [if_pos hconf, if_pos hlow]
  · intro hlow hhigh
    rw [if_pos hconf, if_neg (by omega), if_pos hhigh]
  · intro hband hhigh
    rw [if_pos hconf, if_neg (by omega), if_neg (by omega)]
  · norm_num [sampleWg, sampleTunables, get_adaptive_low_freq,
      get_adaptive_high_freq]
  · norm_num [sampleWg, sampleTunables, get_adaptive_low_freq,
      get_adaptive_high_freq, CPUFREQ_REASON_ADAPTIVE_HIGH]
  · norm_num [sampleWg, sampleTunables, get_adaptive_low_freq,
      get_adaptive_high_freq]

/-- C2 witness: raw 300000 against the sample band selects the low bound
with reason `ADAPTIVE_LOW`. -/
theorem C2_adaptive_band_witness :
    adaptive_clamp sampleWg 300000 0 =
      (500000, CPUFREQ_REASON_ADAPTIVE_LOW) :=
  (C2_adaptive_band sampleWg 300000 0 (by decide)).2.2.2.1

/-- C10: the adaptive clamp is applied only when the user-space
`adaptive_high_freq` tunable is nonzero; with the user value zero the
selector leaves every raw frequency (and the reason field) unchanged, even
though the effective high bound — the max of user and kernel values —
equals the kernel value and may be nonzero. -/
theorem C10_adaptive_needs_user_high (wg : waltgov_policy)
    (raw_freq reasons : Nat)
    (huser : wg.tunables.adaptive_high_freq = 0) :
    adaptive_clamp wg raw_freq reasons = (raw_freq, reasons) ∧
    get_adaptive_high_freq wg = wg.tunables.adaptive_high_freq_kernel := by
  constructor
  · unfold adaptive_clamp
    rw [if_neg (by simp [huser])]
  · unfold get_adaptive_high_freq
    rw [huser]
    exact Nat.zero_max _

/-- C10 witness: with only the kernel band `[400000, 900000]` set, raw
300000 — below both bounds — passes through unclamped. -/
theorem C10_adaptive_needs_user_high_witness :
    adaptive_clamp c10Wg 300000 5 = (300000, 5) ∧
    get_adaptive_high_freq c10Wg = 900000 := by
  have h := C10_adaptive_needs_user_high c10Wg 300000 5 (by decide)
  exact ⟨h.1, h.2⟩

/-- C3 (amended): whenever the band-adjusted computed frequency equals a
NONZERO `cached_raw_freq` and `need_freq_update` is unset, `get_next_freq`
returns 0 with the domain state completely unchanged — in particular
`next_freq` and `last_freq_update_time` keep their values — and the result
does not depend on the driver resolution function, so no resolution and no
hardware write happens; hence under stable input, once a decision has
populated `cached_raw_freq`, further writes are suppressed.  (The nonzero
requirement is what the original claim misses: `cached_raw_freq = 0`
deliberately forces recomputation.) -/
theorem C3_noop_short_circuit (resolve : Nat → Nat) (util_rt : Nat)
    (wg : waltgov_policy) (util cap driv_reasons time : Nat)
    (hcached : wg.cached_raw_freq ≠ 0)
    (heq : (adaptive_clamp wg (walt_map_util_freq util wg cap util_rt)
      driv_reasons).1 = wg.cached_raw_freq)
    (hupd : wg.need_freq_update = false) :
    get_next_freq resolve util_rt wg util cap driv_reasons time =
      ⟨0, wg, (adaptive_clamp wg (walt_map_util_freq util wg cap util_rt)
        driv_reasons).2⟩ := by
  unfold get_next_freq
  rw [if_pos ⟨hcached, heq, hupd⟩]

/-- C3 witness: a domain whose cache matches the computed frequency 341796
for utilization 100: the selector returns 0 and leaves the state untouched,
whatever the resolver would have answered. -/
theorem C3_noop_short_circuit_witness :
    get_next_freq (fun _ => 999) 0 c3bWg 100 1024 7 50 = ⟨0, c3bWg, 7⟩ :=
  (C3_noop_short_circuit (fun _ => 999) 0 c3bWg 100 1024 7 50 (by decide)
    (by decide) rfl).trans (by decide)

/-- C3 counterexample: a domain with `cached_raw_freq = 0` (the state a
rate-limit rejection leaves behind) and computed frequency 0 (utilization
0): the computed band-adjusted frequency equals `cached_raw_freq` and
`need_freq_update` is unset, yet the selector does NOT return "no change":
it resolves through the driver (here resolving to 300000), commits a new
`next_freq` and returns it, refuting the claim as stated. -/
theorem C3_counterexample :
    (adaptive_clamp c3Wg (walt_map_util_freq 0 c3Wg 1024 0) 0).1 =
      c3Wg.cached_raw_freq ∧
    c3Wg.need_freq_update = false ∧
    c3Wg.next_freq = 100000 ∧
    (get_next_freq (fun _ => 300000) 0 c3Wg 0 1024 0 10).ret = 300000 ∧
    (get_next_freq (fun _ => 300000) 0 c3Wg 0 1024 0 10).wg.next_freq =
      300000 := by
  decide

/-- C5: if exactly one scheduling window elapses with cycles tracked at the
constant frequency `F` (so the accumulated cycles are `F` times the window
length), `waltgov_calc_avg_cap` recovers an average frequency of exactly
`F` — the new `avg_cap` is `freq_to_util` of `F` — and as a side effect
resets `curr_cycles` to zero and advances `last_ws` to the new window
start.  The hypotheses say the tracker is aligned at the window start, the
window length is a whole number of microseconds (4 ms in WALT), and the
cycle count does not overflow the `unsigned int` average. -/
theorem C5_cycle_round_trip (window F : Nat) (wg : waltgov_policy)
    (curr_ws : Nat)
    (hcyc : wg.curr_cycles = 0)
    (hlct : wg.last_cyc_update_time = wg.last_ws)
    (hws : curr_ws = wg.last_ws + window)
    (hdvd : NSEC_PER_SEC / KHZ ∣ window)
    (hpos : 0 < window)
    (hnowrap : curr_ws < U64)
    (hsmall : window / (NSEC_PER_SEC / KHZ) * F < U32) :
    ∃ wg1, waltgov_calc_avg_cap window wg curr_ws F = some wg1 ∧
      wg1.avg_cap = freq_to_util wg F ∧ wg1.curr_cycles = 0 ∧
      wg1.last_ws = curr_ws := by
  subst hws
  have hk : NSEC_PER_SEC / KHZ = 1000000 := by norm_num [NSEC_PER_SEC, KHZ]
  rw [hk] at hdvd hsmall
  have hwpos : 1000000 ≤ window := Nat.le_of_dvd hpos hdvd
  have hkpos : 0 < window / 1000000 := Nat.div_pos hwpos (by norm_num)
  have hkF : window * F = 1000000 * (window / 1000000 * F) := by
    conv_lhs => rw [← Nat.div_mul_cancel hdvd]
    ring
  have hsmall1 : window / 1000000 * F < 4294967296 := by
    have : U32 = 4294967296 := by norm_num [U32]
    omega
  have hU64 : U64 = 18446744073709551616 := by norm_num [U64]
  have hWF : window * F < U64 := by
    rw [hkF]
    omega
  have htrack : waltgov_track_cycles window wg F (wg.last_ws + window) =
      { wg with curr_cycles := window / 1000000 * F,
                last_cyc_update_time := wg.last_ws + window } := by
    simp only [waltgov_track_cycles]
    rw [Nat.mod_eq_of_lt hnowrap, min_self, hlct,
      u64sub_eq _ _ (by omega) hnowrap]
    have hdel : wg.last_ws + window - wg.last_ws = window := by omega
    rw [hdel, Nat.mod_eq_of_lt hWF, hk, hkF,
      Nat.mul_div_cancel_left _ (by norm_num : (0:Nat) < 1000000), hcyc]
    rw [Nat.zero_add, Nat.mod_eq_of_lt (by omega)]
  refine ⟨{ wg with
              last_cyc_update_time := wg.last_ws + window,
              avg_cap := freq_to_util wg F,
              curr_cycles := 0,
              last_ws := wg.last_ws + window }, ?_, by simp, by simp, by simp⟩
  unfold waltgov_calc_avg_cap
  rw [if_neg (by omega), if_neg (by omega),
    if_neg (by rw [Nat.mod_eq_of_lt hnowrap]; omega), htrack]
  have havg : (window / 1000000 * F) % U32 / (window / (NSEC_PER_SEC / KHZ)) =
      F := by
    rw [Nat.mod_eq_of_lt (by omega), hk, Nat.mul_div_cancel_left F hkpos]
  simp only [havg]
  congr 1

/-- C5 witness: a 4 ms window at 1000000 kHz accumulates 4000000 cycle
units and recomputes to an average capacity of exactly
`freq_to_util 1000000`, with the cycle counter reset and the window
advanced. -/
theorem C5_cycle_round_trip_witness :
    ∃ wg1, waltgov_calc_avg_cap 4000000 c5Wg 12000000 1000000 = some wg1 ∧
      wg1.avg_cap = freq_to_util c5Wg 1000000 ∧ wg1.curr_cycles = 0 ∧
      wg1.last_ws = 12000000 :=
  C5_cycle_round_trip 4000000 1000000 c5Wg 12000000 rfl rfl (by decide)
    (by decide) (by decide) (by decide) (by decide)

/-- When no override signal is active (no early detection, no RTG boost, no
big-task rotation, predicted load disabled, and utilization below the
hispeed threshold), the override chain leaves the running aggregate
utilization unchanged. -/
theorem walt_adjust_quiet (ed_boost_pct : Nat) (conservative_pl : Bool)
    (wg : waltgov_policy) (wg_cpu : waltgov_cpu) (cpu_util nl util cap : Nat)
    (hed : wg_cpu.walt_load.ed_active = false)
    (hrtg : wg_cpu.walt_load.rtgb_active = false)
    (hbtr : wg_cpu.walt_load.big_task_rotation = false)
    (hpl : wg.tunables.pl = false)
    (hhl : cpu_util < mult_frac wg.avg_cap wg.tunables.hispeed_load 100) :
    waltgov_walt_adjust ed_boost_pct conservative_pl wg wg_cpu cpu_util nl
        util cap =
      ⟨util, wg_cpu.reasons, wg.driving_cpu⟩ := by
  have hnothi : ¬ mult_frac wg.avg_cap wg.tunables.hispeed_load 100 ≤
      cpu_util := Nat.not_le.mpr hhl
  simp only [waltgov_walt_adjust, hed, hrtg, hbtr, hpl, Bool.false_eq_true,
    false_and, if_false, hnothi, and_false, if_true, ite_false, ite_true]

/-- C4: with `boost = 50` the aggregator scales both a CPU's utilization
and its new-task load by `(100+boost)/100 = 150/100` before the driving-CPU
comparison and before any override rule — the scaled value is
`150*x/100`, exactly `1.5*x` whenever `x` is even — and for a single-CPU
domain whose override rules stay quiet, the aggregated driving utilization
coming out of the loop is exactly that scaled value. -/
theorem C4_boost_scaling (ed_boost_pct : Nat) (conservative_pl : Bool)
    (wg : waltgov_policy) (j : waltgov_cpu) (U : Nat)
    (hb : wg.tunables.boost = 50)
    (hju : j.util = U)
    (hed : j.walt_load.ed_active = false)
    (hrtg : j.walt_load.rtgb_active = false)
    (hbtr : j.walt_load.big_task_rotation = false)
    (hpl : wg.tunables.pl = false)
    (hhl : waltgov_boosted 50 U <
      mult_frac wg.avg_cap wg.tunables.hispeed_load 100) :
    waltgov_boosted 50 U = 150 * U / 100 ∧
    (2 ∣ U → 2 * waltgov_boosted 50 U = 3 * U) ∧
    waltgov_boosted 50 j.walt_load.nl = 150 * j.walt_load.nl / 100 ∧
    (waltgov_next_freq_shared_loop ed_boost_pct conservative_pl wg [j]).1 =
      waltgov_boosted 50 U := by
  have hboost : ∀ x : Nat, waltgov_boosted 50 x = 150 * x / 100 := by
    intro x
    unfold waltgov_boosted
    rw [if_pos (by norm_num), show ((50 : Int) + 100).toNat = 150 by decide,
      mult_frac_eq, Nat.mul_comm]
  refine ⟨hboost U, ?_, hboost j.walt_load.nl, ?_⟩
  · rintro ⟨m, rfl⟩
    rw [hboost]
    omega
  · unfold waltgov_next_freq_shared_loop
    simp only [List.foldl, hb, hju]
    rw [if_pos (by simp)]
    rw [walt_adjust_quiet ed_boost_pct conservative_pl _ j
      (waltgov_boosted 50 U) (waltgov_boosted 50 j.walt_load.nl)
      (waltgov_boosted 50 U) j.max hed hrtg hbtr (by simpa using hpl)
      (by simpa using hhl)]

/-- C4 witness: the sample CPU with utilization 700 under `boost = 50`
drives the single-CPU aggregate to `waltgov_boosted 50 700 = 1050 =
1.5 * 700`. -/
theorem C4_boost_scaling_witness :
    2 * waltgov_boosted 50 700 = 3 * 700 ∧
    (waltgov_next_freq_shared_loop 0 false c4Wg [c4Cpu]).1 =
      waltgov_boosted 50 700 :=
  ⟨(C4_boost_scaling 0 false c4Wg c4Cpu 700 rfl rfl rfl rfl rfl rfl
      (by decide)).2.1 ⟨350, rfl⟩,
   (C4_boost_scaling 0 false c4Wg c4Cpu 700 rfl rfl rfl rfl rfl rfl
      (by decide)).2.2.2⟩

/-- C6: with `hispeed_load = 90` and a rolling average capacity of
1000000, a non-migrating CPU at utilization 950000 crosses the hispeed
threshold (`mult_frac 1000000 90 100 = 900000 ≤ 950000`), and absent a
stronger override — no early detection, RTG boost, new-task or predicted
load or rotation signal, and no competing candidate above `hispeed_util` —
the override chain lands exactly on the precomputed `hispeed_util` with
reason `HISPEED`, attributing the decision to this CPU. -/
theorem C6_hispeed_override (ed_boost_pct : Nat) (conservative_pl : Bool)
    (wg : waltgov_policy) (wg_cpu : waltgov_cpu) (nl cap : Nat)
    (hhl : wg.tunables.hispeed_load = 90)
    (hcap : wg.avg_cap = 1000000)
    (hmig : wg_cpu.flags &&& WALT_CPUFREQ_IC_MIGRATION = 0)
    (hed : wg_cpu.walt_load.ed_active = false)
    (hrtg : wg_cpu.walt_load.rtgb_active = false)
    (hbtr : wg_cpu.walt_load.big_task_rotation = false)
    (hplt : wg.tunables.pl = false)
    (hnl : nl < mult_frac 950000 NL_RATIO 100)
    (hhu : 950000 ≤ wg.hispeed_util) :
    mult_frac wg.avg_cap wg.tunables.hispeed_load 100 = 900000 ∧
    waltgov_walt_adjust ed_boost_pct conservative_pl wg wg_cpu 950000 nl
        950000 cap =
      ⟨wg.hispeed_util, CPUFREQ_REASON_HISPEED, wg_cpu.cpu⟩ := by
  have hth : mult_frac wg.avg_cap wg.tunables.hispeed_load 100 = 900000 := by
    rw [hcap, hhl, mult_frac_eq]
  refine ⟨hth, ?_⟩
  have hhiload : mult_frac wg.avg_cap wg.tunables.hispeed_load 100 ≤
      950000 := by omega
  have hnonwd : ¬ mult_frac 950000 NL_RATIO 100 ≤ nl := Nat.not_le.mpr hnl
  simp only [waltgov_walt_adjust, max_and_reason, hed, hrtg, hbtr, hplt,
    hmig, Bool.false_eq_true, false_and, if_false, ite_false, ite_true,
    ne_eq, not_true_eq_false, not_false_eq_true, and_true, hhiload,
    true_and, hnonwd, and_false]
  rw [if_pos ⟨by omega, hhu⟩]

/-- C6 witness: the sample domain (`avg_cap = 1000000`,
`hispeed_util = 960000`) with the quiet 950000-utilization CPU lands on
960000 with reason `HISPEED` attributed to CPU 3. -/
theorem C6_hispeed_override_witness :
    waltgov_walt_adjust 0 false c6Wg c6Cpu 950000 0 950000 1024000 =
      ⟨960000, CPUFREQ_REASON_HISPEED, 3⟩ :=
  (C6_hispeed_override 0 false c6Wg c6Cpu 0 1024000 rfl rfl rfl rfl rfl rfl
    rfl (by decide) (by decide)).2

/-- A state whose reasons equal the base value satisfies the invariant. -/
theorem reasonInv_init (base : Nat) (s : AdjState) (h : s.reasons = base) :
    ReasonInv base s :=
  ⟨base, Or.inl rfl, Or.inl h⟩

/-- A guarded `max_and_reason` step with one of the rule reason codes
preserves the invariant: it either keeps the reasons or installs the single
code of the winning rule. -/
theorem reasonInv_ite_mr (base : Nat) (cond : Prop) [Decidable cond]
    (s : AdjState) (b cpu c : Nat)
    (hc : c = CPUFREQ_REASON_EARLY_DET ∨ c = CPUFREQ_REASON_RTG_BOOST ∨
      c = CPUFREQ_REASON_HISPEED ∨ c = CPUFREQ_REASON_NWD ∨
      c = CPUFREQ_REASON_PL ∨ c = CPUFREQ_REASON_BTR)
    (hs : ReasonInv base s) :
    ReasonInv base (if cond then max_and_reason s b cpu c else s) := by
  split
  · rcases max_and_reason_cases s b cpu c with h | h
    · obtain ⟨r, hr, hsr⟩ := hs
      exact ⟨r, hr, h ▸ hsr⟩
    · exact ⟨c, Or.inr hc, Or.inl h⟩
  · exact hs

/-- The guarded OR-combination of the early-detection bit preserves the
invariant (ORing the bit twice is idempotent). -/
theorem reasonInv_ite_or_ed (base : Nat) (cond : Prop) [Decidable cond]
    (s : AdjState) (hs : ReasonInv base s) :
    ReasonInv base
      (if cond then
        { s with reasons := s.reasons ||| CPUFREQ_REASON_EARLY_DET }
      else s) := by
  split
  · obtain ⟨r, hr, hsr | hsr⟩ := hs
    · exact ⟨r, hr, Or.inr (by simp [hsr])⟩
    · refine ⟨r, hr, Or.inr ?_⟩
      simp only [hsr]
      rw [Nat.lor_assoc]
      simp
  · exact hs

/-- C7: for every override decision, the recorded per-CPU reason field
holds at most one winning reason — each later winning rule structurally
overwrites the earlier value — except that the early-detection reason is
OR-combined into the field, so it can coexist with a later winner; the
second conjunct exhibits this coexistence concretely, with the
predicted-load winner carrying the early-detection bit
(`CPUFREQ_REASON_PL ||| CPUFREQ_REASON_EARLY_DET`). -/
theorem C7_single_winning_reason :
    (∀ (ed_boost_pct : Nat) (conservative_pl : Bool) (wg : waltgov_policy)
        (wg_cpu : waltgov_cpu) (cpu_util nl util cap : Nat),
      ReasonInv wg_cpu.reasons
        (waltgov_walt_adjust ed_boost_pct conservative_pl wg wg_cpu cpu_util
          nl util cap)) ∧
    waltgov_walt_adjust 20 false c7Wg c7Cpu 100 0 100 1024 =
      ⟨999999, CPUFREQ_REASON_PL ||| CPUFREQ_REASON_EARLY_DET, 2⟩ := by
  constructor
  · intro ed_boost_pct conservative_pl wg wg_cpu cpu_util nl util cap
    simp only [waltgov_walt_adjust]
    apply reasonInv_ite_mr _ _ _ _ _ _ (by tauto)
    apply reasonInv_ite_or_ed
    apply reasonInv_ite_mr _ _ _ _ _ _ (by tauto)
    apply reasonInv_ite_mr _ _ _ _ _ _ (by tauto)
    apply reasonInv_ite_mr _ _ _ _ _ _ (by tauto)
    apply reasonInv_ite_mr _ _ _ _ _ _ (by tauto)
    apply reasonInv_ite_mr _ _ _ _ _ _ (by tauto)
    exact reasonInv_init _ _ rfl
  · decide

end WaltGov
